import Mathlib

/-!
Verification of the data-resolution and query layer of the osrs-companion
server (src/src/index.ts) as a shallow embedding in Lean.

Remote HTTP traffic, the filesystem and the JSON parser are environment
inputs: every function that performs I O in the source takes the relevant
response, clock reading or file content as an explicit argument, and a
thrown JavaScript exception is modelled as an `Except.error` value.
Time is in milliseconds, as in `Date.now()`.
-/

-- ── Remote fetch adapter (wikiFetch, pricesFetch; lines 125-138) ─────────

/-- An HTTP response as the handlers observe it: the `ok` flag, the numeric
status, and the already parsed JSON body (typed per caller expectation). -/
structure HttpResponse (α : Type) where
  ok : Bool
  status : Nat
  body : α
deriving Repr

/-- Embeds `wikiFetch` (lines 125-130): on a non-ok response it throws
`Error("Wiki API returned " + status)`, modelled as `Except.error`;
otherwise it returns the parsed body. -/
def wikiFetch {α : Type} (resp : HttpResponse α) : Except String α :=
  if resp.ok then Except.ok resp.body
  else Except.error ("Wiki API returned " ++ toString resp.status)

/-- Embeds `pricesFetch` (lines 132-138): same shape as `wikiFetch` with the
prices-API error text. -/
def pricesFetch {α : Type} (resp : HttpResponse α) : Except String α :=
  if resp.ok then Except.ok resp.body
  else Except.error ("Prices API returned " ++ toString resp.status)

-- ── JavaScript string and object primitives used by the handlers ─────────

/-- Embeds `String.prototype.toLowerCase`: lower-case every character. -/
def jsToLower (s : String) : String := String.mk (s.data.map Char.toLower)

/-- Embeds `String.prototype.toUpperCase`: upper-case every character. -/
def jsToUpper (s : String) : String := String.mk (s.data.map Char.toUpper)

/-- Helper for `containsSubstr`: does `pat` occur as a contiguous run
inside the character list? -/
def charsContain (pat : List Char) : List Char → Bool
  | [] => pat.isEmpty
  | c :: rest => pat.isPrefixOf (c :: rest) || charsContain pat rest

/-- Embeds `String.prototype.includes`: `containsSubstr s pat` is true iff
`pat` occurs as a contiguous substring of `s`. -/
def containsSubstr (s pat : String) : Bool :=
  charsContain pat.data s.data

/-- Embeds a JavaScript object property read `obj[key]` on an object whose
entries are listed in iteration order: the value at the first matching key,
`undefined` (`none`) when the key is absent. -/
def jsGet {α : Type} (obj : List (String × α)) (key : String) : Option α :=
  (obj.find? (fun e => e.1 == key)).map Prod.snd

-- ── Item mapping cache (lines 142-160) ──────────────────────────────────

/-- The two module-level cells `itemMappingCache` (`null` at startup) and
`itemMappingExpiry` (0 at startup).  The mapping itself is the object in
iteration order: a list of (id, name) string pairs. -/
structure MappingState where
  cache : Option (List (String × String))
  expiry : Nat
deriving Repr, DecidableEq

/-- `CACHE_TTL` (line 144): one hour in milliseconds. -/
def CACHE_TTL : Nat := 1000 * 60 * 60

/-- Insertion step for `sortNats`. -/
def insertByLe (k : Nat) : List Nat → List Nat
  | [] => [k]
  | x :: xs => if k ≤ x then k :: x :: xs else x :: insertByLe k xs

/-- Insertion sort on naturals, ascending; models the numeric ascending
iteration order of integer-like JavaScript object keys. -/
def sortNats : List Nat → List Nat
  | [] => []
  | x :: xs => insertByLe x (sortNats xs)

/-- Embeds the loop `mapping[String(item.id)] = item.name` of
`getItemMapping` (lines 151-156): a repeated id keeps a single key whose
value comes from the last assignment, and iterating the resulting object
visits the integer-like keys in ascending numeric order (JavaScript
array-index key ordering). -/
def buildMapping (items : List (Nat × String)) : List (String × String) :=
  (sortNats (items.map Prod.fst).eraseDups).filterMap
    (fun k => (items.reverse.find? (fun it => it.1 == k)).map
      (fun it => (toString k, it.2)))

/-- The body of the `/mapping` response: `some items` when the JSON is an
array of `{id, name}` records (`Array.isArray`), `none` otherwise. -/
def decodeMapping (body : Option (List (Nat × String))) : List (String × String) :=
  match body with
  | some arr => buildMapping arr
  | none => []

/-- Result of one `getItemMapping` call: the mapping handed back, the new
state of the two cache cells, and whether a network fetch was issued. -/
structure MappingStep where
  mapping : List (String × String)
  state : MappingState
  fetched : Bool
deriving Repr, DecidableEq

/-- The fetch path of `getItemMapping` (lines 150-159).  `now` is the clock
at entry and `elapsed` the time the fetch takes, so the second `Date.now()`
on line 158 reads `now + elapsed`. -/
def fetchMapping (now elapsed : Nat)
    (resp : HttpResponse (Option (List (Nat × String)))) : Except String MappingStep :=
  match pricesFetch resp with
  | Except.error e => Except.error e
  | Except.ok data =>
      Except.ok ⟨decodeMapping data, ⟨some (decodeMapping data), now + elapsed + CACHE_TTL⟩, true⟩

/-- Embeds `getItemMapping` (lines 146-160): a non-null cache that has not
expired is returned with no fetch; otherwise the table is fetched, rebuilt
and stored wholesale with expiry `fetch-completion + CACHE_TTL`. -/
def getItemMapping (st : MappingState) (now elapsed : Nat)
    (resp : HttpResponse (Option (List (Nat × String)))) : Except String MappingStep :=
  match st.cache with
  | some m =>
      if now < st.expiry then Except.ok ⟨m, st, false⟩
      else fetchMapping now elapsed resp
  | none => fetchMapping now elapsed resp

-- ── Item resolver (findItemId, lines 162-172) ───────────────────────────

/-- The matching core of `findItemId` (lines 164-171), over an already
obtained mapping: first exact case-insensitive match in iteration order,
else first case-insensitive substring match, else `null`. -/
def findItemIdIn (mapping : List (String × String)) (name : String) : Option String :=
  let lower := jsToLower name
  match mapping.find? (fun e => jsToLower e.2 == lower) with
  | some e => some e.1
  | none =>
      match mapping.find? (fun e => containsSubstr (jsToLower e.2) lower) with
      | some e => some e.1
      | none => none

/-- Embeds `findItemId` (lines 162-172) end to end: obtain the mapping via
the cache, then run the two matching passes. -/
def findItemId (st : MappingState) (now elapsed : Nat)
    (resp : HttpResponse (Option (List (Nat × String)))) (name : String) :
    Except String (Option String × MappingState × Bool) :=
  match getItemMapping st now elapsed resp with
  | Except.error e => Except.error e
  | Except.ok step => Except.ok (findItemIdIn step.mapping name, step.state, step.fetched)

-- ── Price lookup (the `price` tool handler, lines 312-346) ──────────────

/-- One entry of the latest-prices response (`PriceData`, lines 40-45);
every field is optional. -/
structure PriceData where
  high : Option Nat
  highTime : Option Nat
  low : Option Nat
  lowTime : Option Nat
deriving Repr, DecidableEq

/-- The price lines the handler emits (lines 333-341), abstracting the text:
a buy line is present iff `high` is non-null and carries the raw value and
its timestamp; likewise the sell line for `low`. -/
structure PriceLines where
  buy : Option (Nat × Option Nat)
  sell : Option (Nat × Option Nat)
deriving Repr, DecidableEq

/-- Embeds lines 333-341 of the handler: which price lines are emitted. -/
def mkPriceLines (p : PriceData) : PriceLines :=
  ⟨p.high.map (fun h => (h, p.highTime)), p.low.map (fun l => (l, p.lowTime))⟩

/-- The three observable outcomes of the `price` tool: the item-not-found
text (line 321), the no-price-data text (line 327), or a quote named after
the mapping entry (or the raw query) with its price lines. -/
inductive PriceOutput where
  | itemNotFound (item : String)
  | noPriceData (item : String)
  | quote (name : String) (lines : PriceLines)
deriving Repr, DecidableEq

/-- Embeds the `price` tool handler (lines 318-345).  Environment inputs:
`t1`, `e1`, `mapResp1` drive the `getItemMapping` call inside `findItemId`
(line 319); `latestResp` is the `latest?id=` fetch (line 324); `t2`, `e2`,
`mapResp2` drive the second `getItemMapping` call (line 330).  A thrown
exception is `Except.error`. -/
def priceTool (item : String) (st : MappingState)
    (t1 e1 : Nat) (mapResp1 : HttpResponse (Option (List (Nat × String))))
    (latestResp : HttpResponse (Option (List (String × PriceData))))
    (t2 e2 : Nat) (mapResp2 : HttpResponse (Option (List (Nat × String)))) :
    Except String (PriceOutput × MappingState) :=
  match getItemMapping st t1 e1 mapResp1 with
  | Except.error e => Except.error e
  | Except.ok step1 =>
      match findItemIdIn step1.mapping item with
      | none => Except.ok (PriceOutput.itemNotFound item, step1.state)
      | some itemId =>
          match pricesFetch latestResp with
          | Except.error e => Except.error e
          | Except.ok latestBody =>
              match latestBody.bind (fun d => jsGet d itemId) with
              | none => Except.ok (PriceOutput.noPriceData item, step1.state)
              | some price =>
                  match getItemMapping step1.state t2 e2 mapResp2 with
                  | Except.error e => Except.error e
                  | Except.ok step2 =>
                      Except.ok
                        (PriceOutput.quote ((jsGet step2.mapping itemId).getD item)
                          (mkPriceLines price),
                         step2.state)

-- ── Wiki search (the `search` tool handler, lines 249-278) ──────────────

/-- One wiki search result (`WikiSearchItem`, lines 11-15). -/
structure WikiSearchItem where
  title : String
  snippet : String
  pageid : Nat
deriving Repr, DecidableEq

/-- The observable outcome of the `search` tool, abstracting the text:
either the no-results message (line 266) or the result list. -/
inductive SearchOutput where
  | noResults (query : String)
  | results (items : List WikiSearchItem)
deriving Repr, DecidableEq

/-- Embeds the `search` tool handler (lines 256-277).  The body models
`WikiSearchResponse` with its two optional levels: `query?` and `search?`
(`data.query?.search ?? []`). -/
def searchTool (query : String)
    (resp : HttpResponse (Option (Option (List WikiSearchItem)))) :
    Except String SearchOutput :=
  match wikiFetch resp with
  | Except.error e => Except.error e
  | Except.ok body =>
      if ((body.bind id).getD []).isEmpty then Except.ok (SearchOutput.noResults query)
      else Except.ok (SearchOutput.results ((body.bind id).getD []))

-- ── WikiSync player cache (fetchWikiSyncPlayer, lines 208-238) ──────────

/-- One entry of `playerDataCache` (line 208): an arbitrary JSON object
payload, modelled as its key-value entries in iteration order, plus the
timestamp taken at the start of the call that stored it. -/
structure CacheEntry where
  data : List (String × String)
  fetchedAt : Nat
deriving Repr, DecidableEq

/-- The module-level `playerDataCache` object, as a map from username to an
optional entry. -/
def PlayerCache : Type := String → Option CacheEntry

/-- Embeds `playerDataCache[username] = { data, fetchedAt: now }`
(line 233). -/
def updateCache (cache : PlayerCache) (u : String) (e : CacheEntry) : PlayerCache :=
  fun v => if v = u then some e else cache v

/-- What the WikiSync request does once issued: a transport exception or a
rejected body parse (both land in the `catch` on line 235), or a response
with its `ok` flag, status, and parsed JSON body — `none` models a `null`
body, `some []` an empty object. -/
inductive FetchOutcome where
  | exn (msg : String)
  | response (ok : Bool) (status : Nat) (body : Option (List (String × String)))
deriving Repr, DecidableEq

/-- The record `fetchWikiSyncPlayer` resolves with, plus the cache cell
after the call and whether a network request was issued. -/
structure FetchResult where
  data : Option (List (String × String))
  message : Option String
  cache : PlayerCache
  networkCall : Bool

/-- The no-data message of lines 229-231. -/
def noDataMsg : String :=
  "No player data found. Ensure the username is correct and you have the WikiSync plugin installed in RuneLite."

/-- The live-request part of `fetchWikiSyncPlayer` (lines 219-237). -/
def livePlayerFetch (cache : PlayerCache) (u : String) (now : Nat) :
    FetchOutcome → FetchResult
  | FetchOutcome.exn m => ⟨none, some ("Error: " ++ m), cache, true⟩
  | FetchOutcome.response ok status body =>
      if ok then
        match body with
        | none => ⟨none, some noDataMsg, cache, true⟩
        | some d =>
            if d.isEmpty then ⟨none, some noDataMsg, cache, true⟩
            else ⟨some d, none, updateCache cache u ⟨d, now⟩, true⟩
      else ⟨none, some ("WikiSync API returned " ++ toString status), cache, true⟩

/-- Embeds `fetchWikiSyncPlayer` (lines 210-238): a cached entry younger
than one hour is returned without a network call unless `forceRefresh` is
set; otherwise the live request runs with outcome `oc`. -/
def fetchWikiSyncPlayer (cache : PlayerCache) (u : String) (force : Bool)
    (now : Nat) (oc : FetchOutcome) : FetchResult :=
  match cache u with
  | some entry =>
      if force = false ∧ now - entry.fetchedAt < 3600000 then
        ⟨some entry.data, none, cache, false⟩
      else livePlayerFetch cache u now oc
  | none => livePlayerFetch cache u now oc

/-- The cache-hit condition of line 216, as a proposition. -/
def freshHit (cache : PlayerCache) (u : String) (force : Bool) (now : Nat) : Prop :=
  ∃ e, cache u = some e ∧ force = false ∧ now - e.fetchedAt < 3600000

/-- Does the outcome carry a non-empty successful body?  Only such an
outcome makes `fetchWikiSyncPlayer` write to the cache. -/
def nonemptySuccess : FetchOutcome → Bool
  | FetchOutcome.response true _ (some (_ :: _)) => true
  | _ => false

-- ── Player sync store (lines 53-106, 184-204) ───────────────────────────

/-- One skill entry (`SkillEntry`, lines 64-67). -/
structure SkillEntry where
  level : Int
  xp : Int
deriving Repr, DecidableEq

/-- One bank or inventory item (`SyncItem`, lines 53-57). -/
structure SyncItem where
  itemId : Int
  name : String
  quantity : Int
deriving Repr, DecidableEq

/-- One bank tab (`BankTab`, lines 59-62). -/
structure BankTab where
  tabIndex : Int
  items : List SyncItem
deriving Repr, DecidableEq

/-- Quest state (`QuestEntry.state`, line 72). -/
inductive QuestState where
  | notStarted
  | inProgress
  | finished
deriving Repr, DecidableEq

/-- One quest entry (`QuestEntry`, lines 69-73). -/
structure QuestEntry where
  name : String
  displayName : String
  state : QuestState
deriving Repr, DecidableEq

/-- Diary tier flags for one region (`DiaryRegion`, lines 75-80). -/
structure DiaryRegion where
  easy : Bool
  medium : Bool
  hard : Bool
  elite : Bool
deriving Repr, DecidableEq

/-- Combat achievement summary (lines 99-105). -/
structure CombatAchievements where
  easyComplete : Bool
  mediumComplete : Bool
  hardComplete : Bool
  eliteComplete : Bool
  completedTasks : List String
deriving Repr, DecidableEq

/-- Player identity block (lines 85-89). -/
structure PlayerIdent where
  username : String
  combatLevel : Int
  world : Int
deriving Repr, DecidableEq

/-- Bank block (lines 91-94). -/
structure BankData where
  totalItems : Int
  tabs : List BankTab
deriving Repr, DecidableEq

/-- Inventory item with its slot (line 95). -/
structure InvItem where
  itemId : Int
  name : String
  quantity : Int
  slot : Int
deriving Repr, DecidableEq

/-- The per-player sync document (`PlayerSyncData`, lines 82-106); the open
string-keyed records are their entry lists in iteration order. -/
structure PlayerSyncData where
  schemaVersion : Int
  lastUpdated : String
  player : PlayerIdent
  skills : List (String × SkillEntry)
  bank : BankData
  inventory : List InvItem
  equipment : List (String × SyncItem)
  quests : List QuestEntry
  achievementDiaries : List (String × DiaryRegion)
  combatAchievements : CombatAchievements
deriving Repr, DecidableEq

/-- Embeds the filename computation of `getPlayerSyncData` (line 185):
lower-case the username, replace every character outside `[a-z0-9_-]` by
an underscore, append the `.json` suffix. -/
def sanitizeUsername (username : String) : String :=
  String.mk ((jsToLower username).data.map
    (fun c => if c.isLower || c.isDigit || c = '_' || c = '-' then c else '_')) ++ ".json"

/-- Embeds `getPlayerSyncData` (lines 184-193).  The filesystem read and
`JSON.parse` are environment inputs: `readSyncFile` maps a filename to the
file content or a read error, and `jsonParse` yields the decoded document
or `none` when `JSON.parse` throws (or yields `null`).  Any failure of
either is swallowed by the `catch` and becomes `none`. -/
def getPlayerSyncData (readSyncFile : String → Except String String)
    (jsonParse : String → Option PlayerSyncData) (username : String) :
    Option PlayerSyncData :=
  match readSyncFile (sanitizeUsername username) with
  | Except.error _ => none
  | Except.ok raw => jsonParse raw

-- ── Skill lookup (the `skill` branch of get_my_stats, lines 539-554) ────

/-- Outcome of the single-skill branch of the `get_my_stats` handler,
abstracting the text: the skill report of lines 549-553 or the not-found
message of lines 543-547 with the available key list. -/
inductive StatsResult where
  | skillInfo (key : String) (entry : SkillEntry)
  | skillNotFound (skill : String) (available : List String)
deriving Repr, DecidableEq

/-- Embeds lines 539-554 of the `get_my_stats` handler: upper-case the
argument and look it up as an exact key of the skills record. -/
def getMyStatsSkill (skills : List (String × SkillEntry)) (skill : String) : StatsResult :=
  match jsGet skills (jsToUpper skill) with
  | some entry => StatsResult.skillInfo (jsToUpper skill) entry
  | none => StatsResult.skillNotFound skill (skills.map Prod.fst)

-- ── Bank query (the get_my_bank handler, lines 483-520) ─────────────────

/-- A bank item tagged with its source tab (`{ ...item, tab: t.tabIndex }`,
line 495). -/
structure TaggedItem where
  itemId : Int
  name : String
  quantity : Int
  tab : Int
deriving Repr, DecidableEq

/-- Embeds the flattening of lines 494-496. -/
def flattenBank (tabs : List BankTab) : List TaggedItem :=
  tabs.flatMap (fun t => t.items.map (fun i => ⟨i.itemId, i.name, i.quantity, t.tabIndex⟩))

/-- Embeds the filtering portion of the `get_my_bank` handler
(lines 494-507).  `if (search)` skips the name filter when `search` is
absent or the empty string (JavaScript falsiness); the tab and quantity
filters run whenever their argument is defined. -/
def getMyBankItems (tabs : List BankTab) (search : Option String) (tab : Option Int)
    (minQuantity : Option Int) : List TaggedItem :=
  let allItems := flattenBank tabs
  let afterSearch :=
    match search with
    | some s =>
        if s = "" then allItems
        else allItems.filter (fun i => containsSubstr (jsToLower i.name) (jsToLower s))
    | none => allItems
  let afterTab :=
    match tab with
    | some t => afterSearch.filter (fun i => i.tab == t)
    | none => afterSearch
  match minQuantity with
  | some q => afterTab.filter (fun i => decide (q ≤ i.quantity))
  | none => afterTab

/-- The bank query as §4.6 of the spec words it: one conjunctive predicate
over the flattened, tab-tagged item list. -/
def bankPredicate (search : Option String) (tab : Option Int) (minQuantity : Option Int)
    (i : TaggedItem) : Bool :=
  (match search with
   | some s => containsSubstr (jsToLower i.name) (jsToLower s)
   | none => true)
  && (match tab with
      | some t => i.tab == t
      | none => true)
  && (match minQuantity with
      | some q => decide (q ≤ i.quantity)
      | none => true)

/-- The bank query as the spec words it: restrict the flattened list to the
items satisfying the conjunction of all supplied predicates. -/
def bankFilterSpec (tabs : List BankTab) (search : Option String) (tab : Option Int)
    (minQuantity : Option Int) : List TaggedItem :=
  (flattenBank tabs).filter (bankPredicate search tab minQuantity)

-- ── Helper lemmas ───────────────────────────────────────────────────────

/-- The empty pattern occurs in every string. -/
theorem charsContain_nil (l : List Char) : charsContain [] l = true := by
  cases l <;> rfl

/-- Every live request sets the network-call flag. -/
theorem livePlayerFetch_network (cache : PlayerCache) (u : String) (now : Nat)
    (oc : FetchOutcome) : (livePlayerFetch cache u now oc).networkCall = true := by
  cases oc with
  | exn m => rfl
  | response ok status body =>
      cases ok with
      | false => rfl
      | true =>
          cases body with
          | none => rfl
          | some d => cases d with
            | nil => rfl
            | cons x xs => rfl

-- ── C3: item resolver matching order ────────────────────────────────────

/-- C3: for every query name and item mapping, `findItemIdIn` returns the
identifier of the first entry (in iteration order) whose display name
equals the query case-insensitively; failing that, the identifier of the
first entry whose display name contains the query case-insensitively; and
`none` when no entry qualifies. -/
theorem findItemId_resolution (mapping : List (String × String)) (name : String) :
    (∀ pre e post, mapping = pre ++ e :: post →
        jsToLower e.2 = jsToLower name →
        (∀ x ∈ pre, jsToLower x.2 ≠ jsToLower name) →
        findItemIdIn mapping name = some e.1)
    ∧ ((∀ x ∈ mapping, jsToLower x.2 ≠ jsToLower name) →
        ∀ pre e post, mapping = pre ++ e :: post →
          containsSubstr (jsToLower e.2) (jsToLower name) = true →
          (∀ x ∈ pre, containsSubstr (jsToLower x.2) (jsToLower name) = false) →
          findItemIdIn mapping name = some e.1)
    ∧ ((∀ x ∈ mapping,
          jsToLower x.2 ≠ jsToLower name ∧
          containsSubstr (jsToLower x.2) (jsToLower name) = false) →
        findItemIdIn mapping name = none) := by
  refine ⟨?_, ?_, ?_⟩
  · intro pre e post hsplit he hpre
    have hfind : mapping.find? (fun x => jsToLower x.2 == jsToLower name) = some e := by
      rw [List.find?_eq_some]
      refine ⟨by simpa using he, pre, post, hsplit, ?_⟩
      intro a ha
      simpa using hpre a ha
    simp [findItemIdIn, hfind]
  · intro hnoexact pre e post hsplit he hpre
    have hnone : mapping.find? (fun x => jsToLower x.2 == jsToLower name) = none := by
      rw [List.find?_eq_none]
      intro x hx
      simpa using hnoexact x hx
    have hfind : mapping.find?
        (fun x => containsSubstr (jsToLower x.2) (jsToLower name)) = some e := by
      rw [List.find?_eq_some]
      refine ⟨he, pre, post, hsplit, ?_⟩
      intro a ha
      simp [hpre a ha]
    simp [findItemIdIn, hnone, hfind]
  · intro hno
    have hnone : mapping.find? (fun x => jsToLower x.2 == jsToLower name) = none := by
      rw [List.find?_eq_none]
      intro x hx
      simpa using (hno x hx).1
    have hnone2 : mapping.find?
        (fun x => containsSubstr (jsToLower x.2) (jsToLower name)) = none := by
      rw [List.find?_eq_none]
      intro x hx
      simp [(hno x hx).2]
    simp [findItemIdIn, hnone, hnone2]

/-- C3 witness: on the mapping Shark, Rune arrow the query rune has no
exact match and resolves to the first substring match. -/
theorem findItemId_resolution_witness :
    findItemIdIn [("1", "Shark"), ("2", "Rune arrow")] "rune" = some "2" :=
  (findItemId_resolution [("1", "Shark"), ("2", "Rune arrow")] "rune").2.1
    (by decide) [("1", "Shark")] ("2", "Rune arrow") [] rfl (by decide) (by decide)

-- ── C5: mapping cache TTL policy ────────────────────────────────────────

/-- C5: no fetch is issued while a cached table is within its TTL window; a
resolution past the stored expiry issues one fetch and replaces the table
wholesale with expiry fetch-completion-time plus one hour; and of two
resolutions whose times lie within one hour of the first, at most one
fetches. -/
theorem mappingCache_ttl (st : MappingState) (t0 e0 t1 e1 : Nat)
    (r0 r1 : HttpResponse (Option (List (Nat × String))))
    (h0 : r0.ok = true) (h1 : r1.ok = true) (h01 : t0 ≤ t1)
    (hwin : t1 < t0 + CACHE_TTL) :
    (∀ m, st.cache = some m → t0 < st.expiry →
        getItemMapping st t0 e0 r0 = Except.ok ⟨m, st, false⟩)
    ∧ (st.expiry ≤ t0 →
        getItemMapping st t0 e0 r0 =
          Except.ok ⟨decodeMapping r0.body,
            ⟨some (decodeMapping r0.body), t0 + e0 + CACHE_TTL⟩, true⟩)
    ∧ (∀ step0, getItemMapping st t0 e0 r0 = Except.ok step0 →
        ∃ step1, getItemMapping step0.state t1 e1 r1 = Except.ok step1 ∧
          (step0.fetched = true → step1.fetched = false)) := by
  have hfetch0 : fetchMapping t0 e0 r0 =
      Except.ok ⟨decodeMapping r0.body,
        ⟨some (decodeMapping r0.body), t0 + e0 + CACHE_TTL⟩, true⟩ := by
    simp [fetchMapping, pricesFetch, h0]
  have hfetch1 : fetchMapping t1 e1 r1 =
      Except.ok ⟨decodeMapping r1.body,
        ⟨some (decodeMapping r1.body), t1 + e1 + CACHE_TTL⟩, true⟩ := by
    simp [fetchMapping, pricesFetch, h1]
  refine ⟨?_, ?_, ?_⟩
  · intro m hm hlt
    simp [getItemMapping, hm, hlt]
  · intro hexp
    cases hc : st.cache with
    | none => simp [getItemMapping, hc, hfetch0]
    | some m =>
        have : ¬ t0 < st.expiry := by omega
        simp [getItemMapping, hc, this, hfetch0]
  · intro step0 hstep0
    cases hc : st.cache with
    | none =>
        rw [getItemMapping, hc, hfetch0] at hstep0
        have hs : step0 = ⟨decodeMapping r0.body,
            ⟨some (decodeMapping r0.body), t0 + e0 + CACHE_TTL⟩, true⟩ :=
          (Except.ok.injEq _ _).mp hstep0.symm
        subst hs
        have hlt1 : t1 < t0 + e0 + CACHE_TTL := by omega
        exact ⟨⟨decodeMapping r0.body,
          ⟨some (decodeMapping r0.body), t0 + e0 + CACHE_TTL⟩, false⟩,
          by simp [getItemMapping, hlt1], fun _ => rfl⟩
    | some m =>
        by_cases hlt : t0 < st.expiry
        · rw [getItemMapping, hc] at hstep0
          simp only [hlt, if_true] at hstep0
          have hs : step0 = ⟨m, st, false⟩ := (Except.ok.injEq _ _).mp hstep0.symm
          subst hs
          by_cases hlt2 : t1 < st.expiry
          · exact ⟨⟨m, st, false⟩, by simp [getItemMapping, hc, hlt2],
              fun h => absurd h (by simp)⟩
          · refine ⟨⟨decodeMapping r1.body,
              ⟨some (decodeMapping r1.body), t1 + e1 + CACHE_TTL⟩, true⟩, ?_,
              fun h => absurd h (by simp)⟩
            simp [getItemMapping, hc, hlt2, hfetch1]
        · rw [getItemMapping, hc] at hstep0
          simp only [hlt, if_false] at hstep0
          rw [hfetch0] at hstep0
          have hs : step0 = ⟨decodeMapping r0.body,
              ⟨some (decodeMapping r0.body), t0 + e0 + CACHE_TTL⟩, true⟩ :=
            (Except.ok.injEq _ _).mp hstep0.symm
          subst hs
          have hlt1 : t1 < t0 + e0 + CACHE_TTL := by omega
          exact ⟨⟨decodeMapping r0.body,
            ⟨some (decodeMapping r0.body), t0 + e0 + CACHE_TTL⟩, false⟩,
            by simp [getItemMapping, hlt1], fun _ => rfl⟩

/-- C5 witness: concrete two-call run from an empty cache. -/
theorem mappingCache_ttl_witness :
    (∀ m, (⟨none, 0⟩ : MappingState).cache = some m → 0 < (⟨none, 0⟩ : MappingState).expiry →
        getItemMapping ⟨none, 0⟩ 0 5 ⟨true, 200, some [(2, "Cannonball")]⟩ =
          Except.ok ⟨m, ⟨none, 0⟩, false⟩)
    ∧ ((⟨none, 0⟩ : MappingState).expiry ≤ 0 →
        getItemMapping ⟨none, 0⟩ 0 5 ⟨true, 200, some [(2, "Cannonball")]⟩ =
          Except.ok ⟨decodeMapping (some [(2, "Cannonball")]),
            ⟨some (decodeMapping (some [(2, "Cannonball")])), 0 + 5 + CACHE_TTL⟩, true⟩)
    ∧ (∀ step0, getItemMapping ⟨none, 0⟩ 0 5 ⟨true, 200, some [(2, "Cannonball")]⟩ =
          Except.ok step0 →
        ∃ step1, getItemMapping step0.state 100 5 ⟨true, 200, some [(2, "Cannonball")]⟩ =
            Except.ok step1 ∧
          (step0.fetched = true → step1.fetched = false)) :=
  mappingCache_ttl ⟨none, 0⟩ 0 5 100 5
    ⟨true, 200, some [(2, "Cannonball")]⟩ ⟨true, 200, some [(2, "Cannonball")]⟩
    rfl rfl (by decide) (by decide)

-- ── C6: remote player cache policy ──────────────────────────────────────

/-- C6: a non-forced fetch within one hour of the cached fetch returns the
cached payload with no network call; a forced fetch always performs the
network call; and a non-empty successful response on a live call wholly
replaces the entry for that username and resets its timestamp to the call
time. -/
theorem playerCache_policy (cache : PlayerCache) (u : String) (force : Bool)
    (now : Nat) (oc : FetchOutcome) :
    (∀ e, cache u = some e → force = false → now - e.fetchedAt < 3600000 →
        fetchWikiSyncPlayer cache u force now oc = ⟨some e.data, none, cache, false⟩)
    ∧ (force = true → (fetchWikiSyncPlayer cache u force now oc).networkCall = true)
    ∧ (∀ st d, ¬ freshHit cache u force now →
        oc = FetchOutcome.response true st (some d) → d ≠ [] →
        fetchWikiSyncPlayer cache u force now oc =
          ⟨some d, none, updateCache cache u ⟨d, now⟩, true⟩) := by
  refine ⟨?_, ?_, ?_⟩
  · intro e he hf hfresh
    simp [fetchWikiSyncPlayer, he, hf, hfresh]
  · intro hf
    cases hc : cache u with
    | none => simp [fetchWikiSyncPlayer, hc, livePlayerFetch_network]
    | some e => simp [fetchWikiSyncPlayer, hc, hf, livePlayerFetch_network]
  · intro st d hmiss hoc hd
    have hlive : livePlayerFetch cache u now oc =
        ⟨some d, none, updateCache cache u ⟨d, now⟩, true⟩ := by
      subst hoc
      cases d with
      | nil => exact absurd rfl hd
      | cons x xs => rfl
    cases hc : cache u with
    | none => simp [fetchWikiSyncPlayer, hc, hlive]
    | some e =>
        have hcond : ¬ (force = false ∧ now - e.fetchedAt < 3600000) := by
          intro hcon
          exact hmiss ⟨e, hc, hcon.1, hcon.2⟩
        simp only [fetchWikiSyncPlayer, hc, if_neg hcond]
        exact hlive

/-- C6 witness: a fresh hit returns the cached payload with no network
call, and a live non-empty success replaces the entry. -/
theorem playerCache_policy_witness :
    fetchWikiSyncPlayer (fun v => if v = "Bob" then some ⟨[("k", "v")], 10⟩ else none)
        "Bob" false 20 (FetchOutcome.exn "x") =
      ⟨some [("k", "v")], none,
        (fun v => if v = "Bob" then some ⟨[("k", "v")], 10⟩ else none), false⟩
    ∧ fetchWikiSyncPlayer (fun _ => none) "Bob" false 5
        (FetchOutcome.response true 200 (some [("skills", "x")])) =
      ⟨some [("skills", "x")], none,
        updateCache (fun _ => none) "Bob" ⟨[("skills", "x")], 5⟩, true⟩ :=
  ⟨(playerCache_policy (fun v => if v = "Bob" then some ⟨[("k", "v")], 10⟩ else none)
      "Bob" false 20 (FetchOutcome.exn "x")).1
      ⟨[("k", "v")], 10⟩ (by simp) rfl (by decide),
   (playerCache_policy (fun _ => none) "Bob" false 5
      (FetchOutcome.response true 200 (some [("skills", "x")]))).2.2
      200 [("skills", "x")]
      (by rintro ⟨e, he, -, -⟩; exact Option.noConfusion he)
      rfl (by decide)⟩

-- ── C8: remote player fetch failure paths ───────────────────────────────

/-- C8: on a live call, a non-success status or a transport exception
yields a descriptive message and no data without throwing; an empty-object
(or null) success body yields the distinct no-data message; and in none of
these cases is the cache written. -/
theorem playerFetch_failure_values (cache : PlayerCache) (u : String) (force : Bool)
    (now : Nat) (hmiss : ¬ freshHit cache u force now) :
    (∀ st b, fetchWikiSyncPlayer cache u force now (FetchOutcome.response false st b) =
        ⟨none, some ("WikiSync API returned " ++ toString st), cache, true⟩)
    ∧ (∀ m, fetchWikiSyncPlayer cache u force now (FetchOutcome.exn m) =
        ⟨none, some ("Error: " ++ m), cache, true⟩)
    ∧ (∀ st, fetchWikiSyncPlayer cache u force now (FetchOutcome.response true st (some [])) =
        ⟨none, some noDataMsg, cache, true⟩)
    ∧ (∀ st, fetchWikiSyncPlayer cache u force now (FetchOutcome.response true st none) =
        ⟨none, some noDataMsg, cache, true⟩)
    ∧ (∀ st : Nat, noDataMsg ≠ "WikiSync API returned " ++ toString st)
    ∧ (∀ m : String, noDataMsg ≠ "Error: " ++ m) := by
  have hgo : ∀ oc, fetchWikiSyncPlayer cache u force now oc = livePlayerFetch cache u now oc := by
    intro oc
    cases hc : cache u with
    | none => simp [fetchWikiSyncPlayer, hc]
    | some e =>
        have hcond : ¬ (force = false ∧ now - e.fetchedAt < 3600000) := by
          intro hcon
          exact hmiss ⟨e, hc, hcon.1, hcon.2⟩
        simp [fetchWikiSyncPlayer, hc, if_neg hcond]
  refine ⟨?_, ?_, ?_, ?_, ?_, ?_⟩
  · intro st b
    rw [hgo]
    rfl
  · intro m
    rw [hgo]
    rfl
  · intro st
    rw [hgo]
    rfl
  · intro st
    rw [hgo]
    rfl
  · intro st h
    have h2 : noDataMsg.data.head? =
        ("WikiSync API returned " ++ toString st).data.head? := by rw [h]
    rw [String.data_append] at h2
    have h3 : (some 'N' : Option Char) = some 'W' := h2
    exact absurd ((Option.some.injEq _ _).mp h3) (by decide)
  · intro m h
    have h2 : noDataMsg.data.head? = ("Error: " ++ m).data.head? := by rw [h]
    rw [String.data_append] at h2
    have h3 : (some 'N' : Option Char) = some 'E' := h2
    exact absurd ((Option.some.injEq _ _).mp h3) (by decide)

/-- C8 witness: the failure paths on an empty cache. -/
theorem playerFetch_failure_values_witness :
    (∀ st b, fetchWikiSyncPlayer (fun _ => none) "Bob" false 0
        (FetchOutcome.response false st b) =
        ⟨none, some ("WikiSync API returned " ++ toString st), (fun _ => none), true⟩)
    ∧ (∀ m, fetchWikiSyncPlayer (fun _ => none) "Bob" false 0 (FetchOutcome.exn m) =
        ⟨none, some ("Error: " ++ m), (fun _ => none), true⟩)
    ∧ (∀ st, fetchWikiSyncPlayer (fun _ => none) "Bob" false 0
        (FetchOutcome.response true st (some [])) =
        ⟨none, some noDataMsg, (fun _ => none), true⟩)
    ∧ (∀ st, fetchWikiSyncPlayer (fun _ => none) "Bob" false 0
        (FetchOutcome.response true st none) =
        ⟨none, some noDataMsg, (fun _ => none), true⟩)
    ∧ (∀ st : Nat, noDataMsg ≠ "WikiSync API returned " ++ toString st)
    ∧ (∀ m : String, noDataMsg ≠ "Error: " ++ m) :=
  playerFetch_failure_values (fun _ => none) "Bob" false 0
    (by rintro ⟨e, he, -, -⟩; exact Option.noConfusion he)

-- ── C10: failed fetches leave the cache untouched ───────────────────────

/-- C10: whenever the outcome of a player fetch is not a non-empty
successful response, the whole cache is left unchanged — every entry keeps
its payload and timestamp — and a later non-forced call within the window
of an existing entry still serves that entry from cache. -/
theorem playerCache_frame (cache : PlayerCache) (u : String) (force : Bool)
    (now : Nat) (oc : FetchOutcome) (hfail : nonemptySuccess oc = false) :
    (fetchWikiSyncPlayer cache u force now oc).cache = cache
    ∧ (∀ d t0 t2 (oc2 : FetchOutcome), cache u = some ⟨d, t0⟩ → t2 - t0 < 3600000 →
        fetchWikiSyncPlayer (fetchWikiSyncPlayer cache u force now oc).cache u false t2 oc2 =
          ⟨some d, none, cache, false⟩) := by
  have hlive : (livePlayerFetch cache u now oc).cache = cache := by
    cases oc with
    | exn m => rfl
    | response ok status body =>
        cases ok with
        | false => rfl
        | true =>
            cases body with
            | none => rfl
            | some d =>
                cases d with
                | nil => rfl
                | cons x xs => exact absurd hfail (by simp [nonemptySuccess])
  have hframe : (fetchWikiSyncPlayer cache u force now oc).cache = cache := by
    cases hc : cache u with
    | none => simp [fetchWikiSyncPlayer, hc, hlive]
    | some e =>
        by_cases hcond : force = false ∧ now - e.fetchedAt < 3600000
        · simp [fetchWikiSyncPlayer, hc, hcond]
        · simp [fetchWikiSyncPlayer, hc, if_neg hcond, hlive]
  refine ⟨hframe, ?_⟩
  intro d t0 t2 oc2 hd hfresh
  rw [hframe]
  simp [fetchWikiSyncPlayer, hd, hfresh]

/-- C10 witness: a forced call that meets a non-success status leaves the
entry for Bob intact, and a later non-forced call inside the window serves
it from cache. -/
theorem playerCache_frame_witness :
    (fetchWikiSyncPlayer (fun v => if v = "Bob" then some ⟨[("k", "v")], 10⟩ else none)
        "Bob" true 20 (FetchOutcome.response false 500 none)).cache =
      (fun v => if v = "Bob" then some ⟨[("k", "v")], 10⟩ else none)
    ∧ (∀ d t0 t2 (oc2 : FetchOutcome),
        (fun v => if v = "Bob" then some (CacheEntry.mk [("k", "v")] 10) else none) "Bob" =
          some (CacheEntry.mk d t0) → t2 - t0 < 3600000 →
        fetchWikiSyncPlayer
          (fetchWikiSyncPlayer (fun v => if v = "Bob" then some ⟨[("k", "v")], 10⟩ else none)
            "Bob" true 20 (FetchOutcome.response false 500 none)).cache
          "Bob" false t2 oc2 =
          ⟨some d, none,
            (fun v => if v = "Bob" then some ⟨[("k", "v")], 10⟩ else none), false⟩) :=
  playerCache_frame (fun v => if v = "Bob" then some ⟨[("k", "v")], 10⟩ else none)
    "Bob" true 20 (FetchOutcome.response false 500 none) rfl

-- ── C4: single-skill lookup case handling ───────────────────────────────

/-- C4 counterexample: the stored key Attack equals the argument attack
case-insensitively, yet the lookup reports skill-not-found, because the
code upper-cases the argument and then requires exact key equality. -/
theorem getMyStats_case_counterexample :
    getMyStatsSkill [("Attack", ⟨50, 101333⟩)] "attack" =
      StatsResult.skillNotFound "attack" ["Attack"]
    ∧ jsToLower "Attack" = jsToLower "attack" := by
  exact ⟨rfl, rfl⟩

/-- C4 amended: the lookup upper-cases the argument and returns the level
and xp of the first entry whose stored key equals the upper-cased argument
exactly; it reports skill-not-found exactly when no stored key equals the
upper-cased argument. -/
theorem getMyStats_upper_exact (skills : List (String × SkillEntry)) (skill : String) :
    (∀ pre e post, skills = pre ++ e :: post → e.1 = jsToUpper skill →
        (∀ x ∈ pre, x.1 ≠ jsToUpper skill) →
        getMyStatsSkill skills skill = StatsResult.skillInfo (jsToUpper skill) e.2)
    ∧ ((∀ x ∈ skills, x.1 ≠ jsToUpper skill) →
        getMyStatsSkill skills skill =
          StatsResult.skillNotFound skill (skills.map Prod.fst)) := by
  constructor
  · intro pre e post hsplit he hpre
    have hfind : skills.find? (fun x => x.1 == jsToUpper skill) = some e := by
      rw [List.find?_eq_some]
      refine ⟨by simpa using he, pre, post, hsplit, ?_⟩
      intro a ha
      simpa using hpre a ha
    simp [getMyStatsSkill, jsGet, hfind]
  · intro hno
    have hnone : skills.find? (fun x => x.1 == jsToUpper skill) = none := by
      rw [List.find?_eq_none]
      intro x hx
      simpa using hno x hx
    simp [getMyStatsSkill, jsGet, hnone]

/-- C4 amended witness: an upper-case stored key is found. -/
theorem getMyStats_upper_exact_witness :
    getMyStatsSkill [("ATTACK", ⟨50, 101333⟩)] "attack" =
      StatsResult.skillInfo (jsToUpper "attack") (⟨50, 101333⟩ : SkillEntry) :=
  (getMyStats_upper_exact [("ATTACK", ⟨50, 101333⟩)] "attack").1
    [] ("ATTACK", ⟨50, 101333⟩) [] rfl rfl (by simp)

-- ── C1: price lookup not-found cases ────────────────────────────────────

/-- C1 counterexample: a latest-prices entry with neither high nor low
populated does not yield the no-price-data outcome — the handler still
produces a quote, with no buy and no sell line. -/
theorem price_emptyQuote_counterexample :
    priceTool "Abyssal whip" ⟨some [("4151", "Abyssal whip")], 100⟩
        0 0 ⟨true, 200, none⟩
        ⟨true, 200, some [("4151", ⟨none, none, none, none⟩)]⟩
        0 0 ⟨true, 200, none⟩
      = Except.ok (PriceOutput.quote "Abyssal whip" ⟨none, none⟩,
          ⟨some [("4151", "Abyssal whip")], 100⟩)
    ∧ (PriceOutput.quote "Abyssal whip" (⟨none, none⟩ : PriceLines)
        ≠ PriceOutput.noPriceData "Abyssal whip") := by
  exact ⟨rfl, by decide⟩

/-- C1 amended: the lookup yields the no-price-data outcome exactly when
the latest-prices response has no entry for the identifier; an entry in
which neither high nor low is populated still yields a quote, one that
carries no buy line and no sell line. -/
theorem price_notFound_policy (item : String) (st : MappingState)
    (t1 e1 t2 e2 : Nat) (mr1 mr2 : HttpResponse (Option (List (Nat × String))))
    (lr : HttpResponse (Option (List (String × PriceData))))
    (step1 : MappingStep) (itemId : String)
    (hmap : getItemMapping st t1 e1 mr1 = Except.ok step1)
    (hfind : findItemIdIn step1.mapping item = some itemId)
    (hok : lr.ok = true) :
    (lr.body.bind (fun d => jsGet d itemId) = none →
        priceTool item st t1 e1 mr1 lr t2 e2 mr2 =
          Except.ok (PriceOutput.noPriceData item, step1.state))
    ∧ (∀ price step2, lr.body.bind (fun d => jsGet d itemId) = some price →
        price.high = none → price.low = none →
        getItemMapping step1.state t2 e2 mr2 = Except.ok step2 →
        priceTool item st t1 e1 mr1 lr t2 e2 mr2 =
          Except.ok (PriceOutput.quote ((jsGet step2.mapping itemId).getD item)
            ⟨none, none⟩, step2.state)) := by
  have hlatest : pricesFetch lr = Except.ok lr.body := by
    simp [pricesFetch, hok]
  constructor
  · intro hnone
    simp [priceTool, hmap, hfind, hlatest, hnone]
  · intro price step2 hsome hh hl hmap2
    have hlines : mkPriceLines price = ⟨none, none⟩ := by
      simp [mkPriceLines, hh, hl]
    simp [priceTool, hmap, hfind, hlatest, hsome, hmap2, hlines]

/-- C1 amended witness: an identifier absent from the response yields the
no-price-data outcome, at concrete inputs. -/
theorem price_notFound_policy_witness :
    priceTool "Abyssal whip" ⟨some [("4151", "Abyssal whip")], 100⟩
        0 0 ⟨true, 200, none⟩
        ⟨true, 200, some []⟩
        0 0 ⟨true, 200, none⟩
      = Except.ok (PriceOutput.noPriceData "Abyssal whip",
          (⟨some [("4151", "Abyssal whip")], 100⟩ : MappingState)) :=
  (price_notFound_policy "Abyssal whip" ⟨some [("4151", "Abyssal whip")], 100⟩
      0 0 0 0 ⟨true, 200, none⟩ ⟨true, 200, none⟩ ⟨true, 200, some []⟩
      ⟨[("4151", "Abyssal whip")], ⟨some [("4151", "Abyssal whip")], 100⟩, false⟩
      "4151" rfl rfl rfl).1 rfl

-- ── C2: failure propagation of the remote fetch helpers ─────────────────

/-- C2 counterexample: a non-success status from the prices API during the
mapping fetch makes the price operation throw (propagate an exception)
instead of returning a value describing the failure. -/
theorem price_throws_counterexample :
    priceTool "Abyssal whip" ⟨none, 0⟩ 0 0 ⟨false, 500, none⟩
        ⟨true, 200, none⟩ 0 0 ⟨true, 200, none⟩
      = Except.error "Prices API returned 500" := by
  exact rfl

/-- C2 amended: on a non-success status the remote fetch helpers throw an
Error carrying the status, and that exception propagates out of the wiki
search and the price lookup; by contrast, the remote player fetch always
resolves with data or a message, and a failed sync-file read yields the
missing value, neither ever throwing. -/
theorem coreErrorModel :
    (∀ (α : Type) (resp : HttpResponse α), resp.ok = false →
        pricesFetch resp = Except.error ("Prices API returned " ++ toString resp.status)
        ∧ wikiFetch resp = Except.error ("Wiki API returned " ++ toString resp.status))
    ∧ (∀ (query : String) (resp : HttpResponse (Option (Option (List WikiSearchItem)))),
        resp.ok = false →
        searchTool query resp = Except.error ("Wiki API returned " ++ toString resp.status))
    ∧ (∀ (item : String) (st : MappingState) (t1 e1 t2 e2 : Nat)
        (mr1 mr2 : HttpResponse (Option (List (Nat × String))))
        (lr : HttpResponse (Option (List (String × PriceData)))),
        st.cache = none → mr1.ok = false →
        priceTool item st t1 e1 mr1 lr t2 e2 mr2 =
          Except.error ("Prices API returned " ++ toString mr1.status))
    ∧ (∀ (cache : PlayerCache) (u : String) (force : Bool) (now : Nat) (oc : FetchOutcome),
        (fetchWikiSyncPlayer cache u force now oc).data.isSome = true
        ∨ (fetchWikiSyncPlayer cache u force now oc).message.isSome = true)
    ∧ (∀ (readSyncFile : String → Except String String)
        (jsonParse : String → Option PlayerSyncData) (username e : String),
        readSyncFile (sanitizeUsername username) = Except.error e →
        getPlayerSyncData readSyncFile jsonParse username = none) := by
  refine ⟨?_, ?_, ?_, ?_, ?_⟩
  · intro α resp hko
    constructor
    · simp [pricesFetch, hko]
    · simp [wikiFetch, hko]
  · intro query resp hko
    simp [searchTool, wikiFetch, hko]
  · intro item st t1 e1 t2 e2 mr1 mr2 lr hc hko
    simp [priceTool, getItemMapping, hc, fetchMapping, pricesFetch, hko]
  · intro cache u force now oc
    have hall : ∀ r : FetchResult, r = livePlayerFetch cache u now oc →
        r.data.isSome = true ∨ r.message.isSome = true := by
      intro r hr
      subst hr
      cases oc with
      | exn m => right; rfl
      | response ok status body =>
          cases ok with
          | false => right; rfl
          | true =>
              cases body with
              | none => right; rfl
              | some d =>
                  cases d with
                  | nil => right; rfl
                  | cons x xs => left; rfl
    cases hc : cache u with
    | none =>
        have := hall (livePlayerFetch cache u now oc) rfl
        simpa [fetchWikiSyncPlayer, hc] using this
    | some e =>
        by_cases hcond : force = false ∧ now - e.fetchedAt < 3600000
        · left
          simp [fetchWikiSyncPlayer, hc, hcond]
        · have := hall (livePlayerFetch cache u now oc) rfl
          simpa [fetchWikiSyncPlayer, hc, if_neg hcond] using this
  · intro readSyncFile jsonParse username e hread
    simp [getPlayerSyncData, hread]

/-- C2 amended witness: each branch instantiated at concrete inputs. -/
theorem coreErrorModel_witness :
    pricesFetch (⟨false, 500, none⟩ : HttpResponse (Option (List (Nat × String)))) =
      Except.error ("Prices API returned " ++ toString 500)
    ∧ searchTool "Zulrah" ⟨false, 503, none⟩ =
      Except.error ("Wiki API returned " ++ toString 503)
    ∧ ((fetchWikiSyncPlayer (fun _ => none) "Bob" false 0
        (FetchOutcome.exn "network down")).data.isSome = true
      ∨ (fetchWikiSyncPlayer (fun _ => none) "Bob" false 0
        (FetchOutcome.exn "network down")).message.isSome = true)
    ∧ getPlayerSyncData (fun _ => Except.error "ENOENT") (fun _ => none) "Zezima" = none :=
  ⟨(coreErrorModel.1 (Option (List (Nat × String))) ⟨false, 500, none⟩ rfl).1,
   coreErrorModel.2.1 "Zulrah" ⟨false, 503, none⟩ rfl,
   coreErrorModel.2.2.2.1 (fun _ => none) "Bob" false 0 (FetchOutcome.exn "network down"),
   coreErrorModel.2.2.2.2 (fun _ => Except.error "ENOENT") (fun _ => none) "Zezima"
     "ENOENT" rfl⟩

-- ── C7: bank filters are conjunctive and order-independent ──────────────

/-- An empty (lowered) search term matches every name. -/
theorem containsSubstr_emptyPattern (s : String) : containsSubstr s (jsToLower "") = true :=
  charsContain_nil s.data

/-- C7: the bank query equals the flattened tab-tagged item list restricted
to the conjunction of the supplied predicates, and applying the three
predicates in the reverse order yields the same list. -/
theorem bank_filter_conjunctive (tabs : List BankTab) (search : Option String)
    (tab : Option Int) (minQuantity : Option Int) :
    getMyBankItems tabs search tab minQuantity = bankFilterSpec tabs search tab minQuantity
    ∧ (((flattenBank tabs).filter (fun i => match minQuantity with
          | some q => decide (q ≤ i.quantity)
          | none => true)).filter (fun i => match tab with
          | some t => i.tab == t
          | none => true)).filter (fun i => match search with
          | some s => containsSubstr (jsToLower i.name) (jsToLower s)
          | none => true)
      = getMyBankItems tabs search tab minQuantity := by
  have hmain : getMyBankItems tabs search tab minQuantity =
      bankFilterSpec tabs search tab minQuantity := by
    rcases search with _ | s
    · rcases tab with _ | t <;> rcases minQuantity with _ | q <;>
        simp only [getMyBankItems, bankFilterSpec, List.filter_filter] <;>
        first
        | exact (List.filter_eq_self.mpr (fun x _ => by
            simp [bankPredicate])).symm
        | exact List.filter_congr (fun x _ => by
            simp [bankPredicate, Bool.and_comm, Bool.and_left_comm, Bool.and_assoc])
    · by_cases hs : s = ""
      · subst hs
        rcases tab with _ | t <;> rcases minQuantity with _ | q <;>
          simp only [getMyBankItems, bankFilterSpec, List.filter_filter, if_pos rfl] <;>
          first
          | exact (List.filter_eq_self.mpr (fun x _ => by
              simp [bankPredicate, containsSubstr_emptyPattern])).symm
          | exact List.filter_congr (fun x _ => by
              simp [bankPredicate, containsSubstr_emptyPattern, Bool.and_comm,
                Bool.and_left_comm, Bool.and_assoc])
      · rcases tab with _ | t <;> rcases minQuantity with _ | q <;>
          simp only [getMyBankItems, bankFilterSpec, List.filter_filter, if_neg hs] <;>
          first
          | exact (List.filter_eq_self.mpr (fun x _ => by
              simp [bankPredicate])).symm
          | exact List.filter_congr (fun x _ => by
              simp [bankPredicate, Bool.and_comm, Bool.and_left_comm, Bool.and_assoc])
  refine ⟨hmain, ?_⟩
  rw [hmain, bankFilterSpec]
  simp only [List.filter_filter]
  exact List.filter_congr (fun x _ => by
    rcases search with _ | s <;> rcases tab with _ | t <;> rcases minQuantity with _ | q <;>
      simp [bankPredicate, Bool.and_comm, Bool.and_left_comm, Bool.and_assoc])

-- ── C9: uniform Missing on any sync-file read failure ───────────────────

/-- C9: a read failure when loading the sync document — the file absent or
unreadable (a rejected read) or present but holding malformed JSON (a
failing parse) — yields the same missing result, without throwing, so
callers cannot tell a never-synced player from corrupt data. -/
theorem syncRead_failure_missing (readSyncFile : String → Except String String)
    (jsonParse : String → Option PlayerSyncData) (username : String) :
    (∀ e, readSyncFile (sanitizeUsername username) = Except.error e →
        getPlayerSyncData readSyncFile jsonParse username = none)
    ∧ (∀ raw, readSyncFile (sanitizeUsername username) = Except.ok raw →
        jsonParse raw = none →
        getPlayerSyncData readSyncFile jsonParse username = none) := by
  constructor
  · intro e hread
    simp [getPlayerSyncData, hread]
  · intro raw hread hparse
    simp [getPlayerSyncData, hread, hparse]

/-- C9 witness: an absent file and a malformed file both come out missing. -/
theorem syncRead_failure_missing_witness :
    getPlayerSyncData (fun _ => Except.error "ENOENT no such file") (fun _ => none)
      "Zezima" = none
    ∧ getPlayerSyncData (fun _ => Except.ok "not json at all") (fun _ => none)
      "Zezima" = none :=
  ⟨(syncRead_failure_missing (fun _ => Except.error "ENOENT no such file")
      (fun _ => none) "Zezima").1 "ENOENT no such file" rfl,
   (syncRead_failure_missing (fun _ => Except.ok "not json at all")
      (fun _ => none) "Zezima").2 "not json at all" rfl rfl⟩
